import Mathlib

/-!
Verification of the file-backed session store (tower-sessions-file-store).

The development shallowly embeds src/lib.rs. The store configuration
FileStore, the path derivation FileStore.path, the inherent FileStore.save
and the four SessionStore trait operations are translated directly from
the source. The filesystem is modelled as an association list from paths
to file contents; reading a missing file and removing a missing file fail
with an error message, mirroring the behaviour of the standard filesystem
calls used by the source (fs::read_to_string, fs::write, fs::remove_file)
on the relevant conditions. The externally-defined session types and their
JSON codec (tower_sessions session::Id, session::Record, serde_json) are
modelled from the spec, which treats them as opaque values with a
deterministic, round-tripping serialization contract.
-/

set_option autoImplicit false

namespace session

/-- Modelled from the spec: the session identifier of the external session
framework is an opaque, externally-generated token whose only obligation is
to render to a filesystem-safe string; the store uses it solely through that
rendering. We model it as its string rendering. -/
structure Id where
  render : String
deriving DecidableEq, Repr

/-- The string rendering of an identifier (the Display impl used by
session_id.to_string() in the source). -/
def Id.toString (i : Id) : String :=
  i.render

/-- Modelled from the spec: the session record of the external session
framework is an opaque structure containing the identifier plus an arbitrary
payload that the store never inspects. We model the payload as an opaque
string. -/
structure Record where
  id : Id
  data : String
deriving DecidableEq, Repr

end session

/-- One character of the unary length field of the modelled serialization. -/
def lenChar : Char := 'x'

/-- The delimiter between the length field and the field body. -/
def sepChar : Char := ':'

/-- Modelled from the spec: a deterministic, unambiguous (length-prefixed)
encoding of one string field of a record, standing in for the external JSON
encoder. The length is written in unary so that decoding is elementary. -/
def encodeField (s : List Char) : List Char :=
  List.replicate s.length lenChar ++ sepChar :: s

/-- Decoder for encodeField: count the unary length, then split the rest of
the input at that length, returning the field and the remaining input. -/
def decodeField (n : Nat) : List Char → Option (List Char × List Char)
  | [] => none
  | c :: cs =>
    if c = lenChar then decodeField (n + 1) cs
    else if c = sepChar then
      if n ≤ cs.length then some (cs.take n, cs.drop n) else none
    else none

/-- Modelled from the spec: serde_json serialization of a Record. Per the
spec the record is serializable to a structured text document and the codec
is deterministic; both fields are encoded in sequence. -/
def encodeRecord (r : session.Record) : String :=
  String.mk (encodeField r.id.render.data ++ encodeField r.data.data)

/-- Modelled from the spec: serde_json to_string on a Record, which returns
a result; serialization of the opaque record succeeds and is deterministic. -/
def serializeRecord (r : session.Record) : Except String String :=
  Except.ok (encodeRecord r)

/-- Modelled from the spec: serde_json from_str on a Record, the inverse of
the encoder; malformed input fails with a message. -/
def deserializeRecord (s : String) : Except String session.Record :=
  match decodeField 0 s.data with
  | none => Except.error "EOF while parsing a value"
  | some (i, rest) =>
    match decodeField 0 rest with
    | some (d, []) => Except.ok ⟨⟨String.mk i⟩, String.mk d⟩
    | _ => Except.error "trailing characters"

/-- The filesystem, as visible to the store: a finite map from paths to file
contents, represented as an association list whose head entry for a path is
its current content. -/
abbrev FS := List (String × String)

/-- Current content of the file at path p, if the file exists. -/
def fsLookup : FS → String → Option String
  | [], _ => none
  | (q, c) :: rest, p => if q = p then some c else fsLookup rest p

/-- Model of fs::read_to_string at path p: the content when the file
exists, and the not-found error otherwise. -/
def fsRead (st : FS) (p : String) : Except String String :=
  match fsLookup st p with
  | some c => Except.ok c
  | none => Except.error "No such file or directory (os error 2)"

/-- Model of fs::write at path p: unconditional whole-file replacement,
creating the file if absent and overwriting if present. -/
def fsWrite (st : FS) (p c : String) : FS :=
  (p, c) :: st

/-- Removes every entry for path p from the filesystem map. -/
def fsErase : FS → String → FS
  | [], _ => []
  | (q, c) :: rest, p => if q = p then fsErase rest p else (q, c) :: fsErase rest p

/-- Model of fs::remove_file at path p: removes the file when it exists and
fails with the not-found error when it does not. -/
def fsRemoveFile (st : FS) (p : String) : Except String FS :=
  match fsLookup st p with
  | some _ => Except.ok (fsErase st p)
  | none => Except.error "No such file or directory (os error 2)"

/-- The platform path separator std::path::MAIN_SEPARATOR, on the reference
(Unix) platform. -/
def MAIN_SEPARATOR : String := "/"

/-- The FileStore struct of the source: the three configuration strings.
The source names the second field prefix; it is renamed pref here. -/
structure FileStore where
  dir : String
  pref : String
  extension : String
deriving DecidableEq, Repr

/-- FileStore::new from the source: value construction with the three
fields. -/
def FileStore.new (dir pref extension : String) : FileStore :=
  ⟨dir, pref, extension⟩

/-- FileStore::in_dir from the source: value construction with blank
prefix and extension fields. -/
def FileStore.in_dir (d : String) : FileStore :=
  ⟨d, "", ""⟩

/-- FileStore::path from the source: the full path a session with the given
session_id is found or created at, built by string concatenation. -/
def FileStore.path (self : FileStore) (session_id : session.Id) : String :=
  "" ++ self.dir ++ MAIN_SEPARATOR ++ self.pref ++ session_id.toString ++ self.extension

namespace session_store

/-- The error type of the external session_store module; the source uses
only the Decode constructor. -/
inductive Error where
  | Decode : String → Error
  | Encode : String → Error
  | Backend : String → Error
deriving DecidableEq, Repr

end session_store

/-- FileStore::save (the inherent method) from the source: serialize the
record, then write the result to path(record.id), mapping either failure to
the Decode error. The filesystem state is threaded explicitly; the new state
is returned on success. -/
def FileStore.save (self : FileStore) (st : FS) (record : session.Record) :
    Except session_store.Error FS :=
  match serializeRecord record with
  | Except.error e => Except.error (session_store.Error.Decode e)
  | Except.ok serialized => Except.ok (fsWrite st (self.path record.id) serialized)

namespace SessionStore

/-- The trait method create from the source: its body is exactly
self.save(record). The mutable borrow of the record is handled by the
stateful wrapper runCreate below. -/
def create (self : FileStore) (st : FS) (record : session.Record) :
    Except session_store.Error FS :=
  FileStore.save self st record

/-- The trait method save from the source: it delegates to the inherent
FileStore::save. -/
def save (self : FileStore) (st : FS) (record : session.Record) :
    Except session_store.Error FS :=
  FileStore.save self st record

/-- The trait method load from the source: read the file at
path(session_id), deserialize it, and return the record wrapped as present;
either failure is mapped to the Decode error. -/
def load (self : FileStore) (st : FS) (session_id : session.Id) :
    Except session_store.Error (Option session.Record) :=
  match fsRead st (self.path session_id) with
  | Except.error e => Except.error (session_store.Error.Decode e)
  | Except.ok data =>
    match deserializeRecord data with
    | Except.error e => Except.error (session_store.Error.Decode e)
    | Except.ok record => Except.ok (some record)

/-- The trait method delete from the source: remove the file at
path(session_id), mapping failure to the Decode error. -/
def delete (self : FileStore) (st : FS) (session_id : session.Id) :
    Except session_store.Error FS :=
  match fsRemoveFile st (self.path session_id) with
  | Except.error e => Except.error (session_store.Error.Decode e)
  | Except.ok st' => Except.ok st'

end SessionStore

/-- Combined state for the stateful rendering of the trait methods: the
store configuration (the receiver of the &self borrow) together with the
filesystem. -/
structure StoreState where
  config : FileStore
  fsys : FS
deriving DecidableEq, Repr

/-- Stateful rendering of the trait method create, making the borrows of
the source signature explicit: &self and the mutably borrowed record are
threaded in and out. The body, self.save(record), reads the configuration
and never assigns to it or to the record, so both pass through; the unit
result and the filesystem effect mirror the Rust Result of unit. -/
def runCreate (s : StoreState) (record : session.Record) :
    Except session_store.Error Unit × StoreState × session.Record :=
  match FileStore.save s.config s.fsys record with
  | Except.ok st' => (Except.ok (), ⟨s.config, st'⟩, record)
  | Except.error e => (Except.error e, ⟨s.config, s.fsys⟩, record)

/-- Stateful rendering of the trait method save; self is threaded in and
out, unchanged by the body. -/
def runSave (s : StoreState) (record : session.Record) :
    Except session_store.Error Unit × StoreState :=
  match FileStore.save s.config s.fsys record with
  | Except.ok st' => (Except.ok (), ⟨s.config, st'⟩)
  | Except.error e => (Except.error e, ⟨s.config, s.fsys⟩)

/-- Stateful rendering of the trait method load; self is threaded in and
out, unchanged by the body, and the filesystem is not modified. -/
def runLoad (s : StoreState) (session_id : session.Id) :
    Except session_store.Error (Option session.Record) × StoreState :=
  (SessionStore.load s.config s.fsys session_id, ⟨s.config, s.fsys⟩)

/-- Stateful rendering of the trait method delete; self is threaded in and
out, unchanged by the body. -/
def runDelete (s : StoreState) (session_id : session.Id) :
    Except session_store.Error Unit × StoreState :=
  match SessionStore.delete s.config s.fsys session_id with
  | Except.ok st' => (Except.ok (), ⟨s.config, st'⟩)
  | Except.error e => (Except.error e, ⟨s.config, s.fsys⟩)

/-! Concrete values used by the witness theorems: the configuration of the
concrete scenario of the spec and two records sharing its identifier. -/

/-- The configuration of the concrete scenario in the spec. -/
def demoStore : FileStore := FileStore.new "/tmp/sess" "s-" ".json"

/-- The identifier of the concrete scenario in the spec. -/
def demoId : session.Id := ⟨"abc123"⟩

/-- A concrete record with the scenario identifier. -/
def demoRec : session.Record := ⟨demoId, "count 3"⟩

/-- A second concrete record with the same identifier and a different
payload. -/
def demoRec2 : session.Record := ⟨demoId, "count 4"⟩

/-- The filesystem after saving demoRec into an empty filesystem. -/
def demoSt1 : FS := [(FileStore.path demoStore demoId, encodeRecord demoRec)]

/-! Helper lemmas about the filesystem model and the codec. -/

/-- Looking up a path right after writing it returns the written content. -/
theorem fsLookup_fsWrite_self (st : FS) (p c : String) :
    fsLookup (fsWrite st p c) p = some c := by
  simp [fsWrite, fsLookup]

/-- Erasing a path removes every entry for it. -/
theorem fsLookup_fsErase_self (st : FS) (p : String) :
    fsLookup (fsErase st p) p = none := by
  induction st with
  | nil => rfl
  | cons hd tl ih =>
    obtain ⟨q, c⟩ := hd
    by_cases h : q = p
    · simp [fsErase, h, ih]
    · simp [fsErase, fsLookup, h, ih]

/-- Decoding a unary length field: the digits accumulate into the count,
and the remainder is split at the total count. -/
theorem decodeField_replicate (m : Nat) :
    ∀ (n : Nat) (t : List Char),
      decodeField n (List.replicate m lenChar ++ sepChar :: t) =
        if n + m ≤ t.length then some (t.take (n + m), t.drop (n + m)) else none := by
  induction m with
  | zero =>
    intro n t
    simp only [List.replicate, List.nil_append, decodeField]
    have hne : ¬ (sepChar = lenChar) := by decide
    simp [hne]
  | succ k ih =>
    intro n t
    simp only [List.replicate, List.cons_append, decodeField, if_pos rfl, if_true,
      List.append_eq]
    rw [ih (n + 1) t]
    have harith : n + 1 + k = n + (k + 1) := by omega
    rw [harith]

/-- Decoding an encoded field recovers the field and the remaining input. -/
theorem decodeField_encodeField (s rest : List Char) :
    decodeField 0 (encodeField s ++ rest) = some (s, rest) := by
  have h := decodeField_replicate s.length 0 (s ++ rest)
  simp only [encodeField, List.append_assoc, List.cons_append] at h ⊢
  rw [h]
  have hle : 0 + s.length ≤ (s ++ rest).length := by
    simp [List.length_append]
  rw [if_pos hle]
  simp [List.take_left, List.drop_left]

/-- The modelled deserializer inverts the modelled serializer. -/
theorem deserializeRecord_encodeRecord (r : session.Record) :
    deserializeRecord (encodeRecord r) = Except.ok r := by
  have h1 := decodeField_encodeField r.id.render.data (encodeField r.data.data)
  have h2 := decodeField_encodeField r.data.data ([] : List Char)
  simp only [List.append_nil] at h2
  simp [deserializeRecord, encodeRecord, h1, h2]

/-- Appending a string to the empty string returns it unchanged. -/
theorem empty_append_string (s : String) : "" ++ s = s := by
  cases s
  rfl

/-- Inversion for save: the saved state is exactly the filesystem with the
encoded record written at the derived path. -/
theorem save_ok_inv (self : FileStore) (st : FS) (r : session.Record) (st' : FS)
    (h : SessionStore.save self st r = Except.ok st') :
    st' = fsWrite st (self.path r.id) (encodeRecord r) := by
  simp [SessionStore.save, FileStore.save, serializeRecord] at h
  exact h.symm

/-- After a successful save, loading the record's identifier returns the
record wrapped as present. -/
theorem save_then_load (self : FileStore) (st : FS) (r : session.Record) (st' : FS)
    (h : SessionStore.save self st r = Except.ok st') :
    SessionStore.load self st' r.id = Except.ok (some r) := by
  rw [save_ok_inv self st r st' h]
  simp [SessionStore.load, fsRead, fsLookup_fsWrite_self, deserializeRecord_encodeRecord]

/-- The filesystem after saving demoRec2 on top of demoSt1. -/
def demoSt2 : FS :=
  (FileStore.path demoStore demoId, encodeRecord demoRec2) :: demoSt1

/-- The filesystem after saving demoRec a second time on top of demoSt1. -/
def demoSt1b : FS :=
  (FileStore.path demoStore demoId, encodeRecord demoRec) :: demoSt1

/-- C1: load never returns the empty optional. A file that is read and
decoded successfully is returned wrapped as present, and a missing file
fails with a storage error instead of producing the absent result. -/
theorem load_never_absent (self : FileStore) (st : FS) (sid : session.Id) :
    SessionStore.load self st sid ≠ Except.ok none ∧
    (∀ (data : String) (record : session.Record),
      fsRead st (self.path sid) = Except.ok data →
      deserializeRecord data = Except.ok record →
      SessionStore.load self st sid = Except.ok (some record)) ∧
    (fsLookup st (self.path sid) = none →
      ∃ msg, SessionStore.load self st sid =
        Except.error (session_store.Error.Decode msg)) := by
  refine ⟨?_, ?_, ?_⟩
  · unfold SessionStore.load
    split
    · simp
    · split <;> simp
  · intro data record h1 h2
    simp [SessionStore.load, h1, h2]
  · intro h
    unfold SessionStore.load fsRead
    rw [h]
    exact ⟨_, rfl⟩

/-- Witness for C1 at the concrete scenario: loading from the filesystem
holding the saved record returns it as present, and loading from the empty
filesystem fails with a Decode error. -/
theorem load_never_absent_witness :
    SessionStore.load demoStore demoSt1 demoId = Except.ok (some demoRec) ∧
    ∃ msg, SessionStore.load demoStore [] demoId =
      Except.error (session_store.Error.Decode msg) :=
  ⟨(load_never_absent demoStore demoSt1 demoId).2.1 (encodeRecord demoRec) demoRec rfl rfl,
   (load_never_absent demoStore [] demoId).2.2 rfl⟩

/-- C2: path derivation is the pure concatenation dir, separator, prefix,
identifier rendering, suffix; on the concrete scenario configuration it
yields /tmp/sess/s-abc123.json for the identifier rendering abc123. -/
theorem path_deterministic_concat :
    (∀ (self : FileStore) (sid : session.Id),
      FileStore.path self sid =
        self.dir ++ MAIN_SEPARATOR ++ self.pref ++ sid.toString ++ self.extension) ∧
    FileStore.path (FileStore.new "/tmp/sess" "s-" ".json") ⟨"abc123"⟩ =
      "/tmp/sess/s-abc123.json" := by
  constructor
  · intro self sid
    unfold FileStore.path
    rw [empty_append_string]
  · decide

/-- C3: round trip. A successful save of a record followed by a load of its
identifier returns the record, wrapped as present, with identifier and
payload intact. -/
theorem save_load_round_trip (self : FileStore) (st : FS) (r : session.Record)
    (st' : FS) (h : SessionStore.save self st r = Except.ok st') :
    SessionStore.load self st' r.id = Except.ok (some r) :=
  save_then_load self st r st' h

/-- Witness for C3 at the concrete scenario: saving demoRec into the empty
filesystem yields demoSt1, and loading its identifier from demoSt1 returns
demoRec as present. -/
theorem save_load_round_trip_witness :
    SessionStore.save demoStore [] demoRec = Except.ok demoSt1 ∧
    SessionStore.load demoStore demoSt1 demoRec.id = Except.ok (some demoRec) :=
  ⟨rfl, save_load_round_trip demoStore [] demoRec demoSt1 rfl⟩

/-- C4: create and save are semantically identical: create is exactly save,
and both unconditionally write the serialized record at the derived path,
with no existence check or collision detection (the result is the written
filesystem regardless of the prior state at that path). -/
theorem create_save_identical (self : FileStore) (st : FS) (r : session.Record) :
    SessionStore.create self st r = SessionStore.save self st r ∧
    SessionStore.save self st r =
      Except.ok (fsWrite st (self.path r.id) (encodeRecord r)) :=
  ⟨rfl, rfl⟩

/-- C5: delete removes the file and fails with a storage error when the
file is absent; consequently save, then delete, then load fails with a
storage error. -/
theorem delete_removes (self : FileStore) (st : FS) (sid : session.Id)
    (r : session.Record) (st1 st2 : FS) :
    (fsLookup st (self.path sid) = none →
      ∃ msg, SessionStore.delete self st sid =
        Except.error (session_store.Error.Decode msg)) ∧
    (SessionStore.save self st r = Except.ok st1 →
      SessionStore.delete self st1 r.id = Except.ok st2 →
      ∃ msg, SessionStore.load self st2 r.id =
        Except.error (session_store.Error.Decode msg)) := by
  constructor
  · intro h
    unfold SessionStore.delete fsRemoveFile
    rw [h]
    exact ⟨_, rfl⟩
  · intro h1 h2
    have e1 := save_ok_inv self st r st1 h1
    subst e1
    unfold SessionStore.delete fsRemoveFile at h2
    rw [fsLookup_fsWrite_self] at h2
    simp only [Except.ok.injEq] at h2
    subst h2
    unfold SessionStore.load fsRead
    rw [fsLookup_fsErase_self]
    exact ⟨_, rfl⟩

/-- Witness for C5 at the concrete scenario: deleting from the empty
filesystem fails with a Decode error, and after save into the empty
filesystem then delete, the load fails with a Decode error. -/
theorem delete_removes_witness :
    (∃ msg, SessionStore.delete demoStore [] demoId =
      Except.error (session_store.Error.Decode msg)) ∧
    (∃ msg, SessionStore.load demoStore [] demoRec.id =
      Except.error (session_store.Error.Decode msg)) :=
  ⟨(delete_removes demoStore [] demoId demoRec demoSt1 []).1 rfl,
   (delete_removes demoStore [] demoId demoRec demoSt1 []).2 rfl rfl⟩

/-- C6: overwrite semantics. Saving r1 then r2 under the same identifier and
loading that identifier returns the content of r2, the last write. -/
theorem overwrite_last_write_wins (self : FileStore) (st : FS)
    (r1 r2 : session.Record) (st1 st2 : FS) (hid : r1.id = r2.id)
    (_h1 : SessionStore.save self st r1 = Except.ok st1)
    (h2 : SessionStore.save self st1 r2 = Except.ok st2) :
    SessionStore.load self st2 r1.id = Except.ok (some r2) := by
  rw [hid]
  exact save_then_load self st1 r2 st2 h2

/-- Witness for C6 at the concrete scenario: saving demoRec then demoRec2
under the shared identifier and loading it returns demoRec2. -/
theorem overwrite_last_write_wins_witness :
    demoRec.id = demoRec2.id ∧
    SessionStore.save demoStore [] demoRec = Except.ok demoSt1 ∧
    SessionStore.save demoStore demoSt1 demoRec2 = Except.ok demoSt2 ∧
    SessionStore.load demoStore demoSt2 demoRec.id = Except.ok (some demoRec2) :=
  ⟨rfl, rfl, rfl,
   overwrite_last_write_wins demoStore [] demoRec demoRec2 demoSt1 demoSt2 rfl rfl rfl⟩

/-- C7: idempotent save. Saving the same record twice in succession leaves
identical file content at the derived path after each save, namely the
deterministic encoding of the record. -/
theorem save_idempotent (self : FileStore) (st : FS) (r : session.Record)
    (st1 st2 : FS) (h1 : SessionStore.save self st r = Except.ok st1)
    (h2 : SessionStore.save self st1 r = Except.ok st2) :
    fsLookup st1 (self.path r.id) = some (encodeRecord r) ∧
    fsLookup st2 (self.path r.id) = some (encodeRecord r) := by
  have e1 := save_ok_inv self st r st1 h1
  have e2 := save_ok_inv self st1 r st2 h2
  subst e1
  subst e2
  exact ⟨fsLookup_fsWrite_self _ _ _, fsLookup_fsWrite_self _ _ _⟩

/-- Witness for C7 at the concrete scenario: after saving demoRec twice,
the file content at the derived path is the encoding of demoRec both
times. -/
theorem save_idempotent_witness :
    SessionStore.save demoStore [] demoRec = Except.ok demoSt1 ∧
    SessionStore.save demoStore demoSt1 demoRec = Except.ok demoSt1b ∧
    fsLookup demoSt1 (FileStore.path demoStore demoRec.id) = some (encodeRecord demoRec) ∧
    fsLookup demoSt1b (FileStore.path demoStore demoRec.id) = some (encodeRecord demoRec) :=
  ⟨rfl, rfl,
   (save_idempotent demoStore [] demoRec demoSt1 demoSt1b rfl rfl).1,
   (save_idempotent demoStore [] demoRec demoSt1 demoSt1b rfl rfl).2⟩

/-- Holds when an operation result is either a success or the Decode error
kind carrying a message string; the other error kinds are excluded. -/
def resultOkOrDecode {α : Type} : Except session_store.Error α → Prop
  | Except.ok _ => True
  | Except.error (session_store.Error.Decode _) => True
  | Except.error (session_store.Error.Encode _) => False
  | Except.error (session_store.Error.Backend _) => False

/-- C8: every failure of the four operations surfaces to the caller as the
single Decode error kind carrying a message string; no other error kind is
ever produced, and successes pass through directly. -/
theorem errors_single_decode_kind (self : FileStore) (st : FS)
    (sid : session.Id) (r : session.Record) :
    resultOkOrDecode (SessionStore.create self st r) ∧
    resultOkOrDecode (SessionStore.save self st r) ∧
    resultOkOrDecode (SessionStore.load self st sid) ∧
    resultOkOrDecode (SessionStore.delete self st sid) := by
  refine ⟨trivial, trivial, ?_, ?_⟩
  · unfold SessionStore.load
    split
    · exact trivial
    · split
      · exact trivial
      · exact trivial
  · unfold SessionStore.delete
    split
    · exact trivial
    · exact trivial

/-- C9: the configuration triple is never mutated: each of the four
operations returns the store state with the config component (the dir,
pref and extension fields) equal to the one it received. -/
theorem config_immutable (s : StoreState) (r : session.Record) (sid : session.Id) :
    ((runCreate s r).2.1).config = s.config ∧
    ((runSave s r).2).config = s.config ∧
    ((runLoad s sid).2).config = s.config ∧
    ((runDelete s sid).2).config = s.config := by
  refine ⟨rfl, rfl, rfl, ?_⟩
  unfold runDelete
  cases SessionStore.delete s.config s.fsys sid with
  | error e => rfl
  | ok st' => rfl

/-- C10: create never mutates the record it receives through the mutable
borrow: the record after the call, including its identifier field, equals
the record before the call. -/
theorem create_no_record_mutation (s : StoreState) (r : session.Record) :
    (runCreate s r).2.2 = r ∧ ((runCreate s r).2.2).id = r.id :=
  ⟨rfl, rfl⟩
